import Mathlib

set_option linter.unusedVariables false

/- Shallow embedding of the log-streaming pipeline of the vercel-clone
   service: the build server (build-server-go/main.go) and the API server
   (api-server-go, whose Go source is embedded in its README).  Pure Lean
   translations of the functions the claims concern come first, followed by
   theorems settling the claims. -/

/-! ### Build server: payload and channel construction (main.go, publishLog) -/

/-- The broker payload built by publishLog (main.go line 70): the raw message
is interpolated into a JSON-shaped template by fmt.Sprintf.  The source
performs no JSON escaping of the message. -/
def buildLogPayload (message : String) : String :=
  "\x7b\"log\":\"" ++ message ++ "\"\x7d"

/-- The broker channel name built by publishLog (main.go line 71): the fixed
namespace string concatenated with the build identity (PROJECT_ID). -/
def logChannel (projectID : String) : String :=
  "logs:" ++ projectID

/-! ### A JSON decoder for the payload shape the spec requires
    (an object with a single log field holding a string). -/

/-- Value of a hexadecimal digit character, as used by JSON unicode escapes. -/
def hexDigitVal (c : Char) : Option Nat :=
  if '0' ≤ c ∧ c ≤ '9' then some (c.toNat - '0'.toNat)
  else if 'a' ≤ c ∧ c ≤ 'f' then some (c.toNat - 'a'.toNat + 10)
  else if 'A' ≤ c ∧ c ≤ 'F' then some (c.toNat - 'A'.toNat + 10)
  else none

/-- JSON string-body parser over characters: consumes the body of a quoted
JSON string after its opening quote, handling the standard escapes, and
returns the decoded text together with the characters remaining after the
closing quote.  Raw control characters are invalid, as in JSON.  The fuel
argument makes the recursion structural; callers supply enough fuel.
Surrogate pairs are not combined (no claim exercises them). -/
def parseJStr : Nat → List Char → List Char → Option (String × List Char)
  | 0, _, _ => none
  | _ + 1, _, [] => none
  | fuel + 1, acc, c :: rest =>
    if c = '"' then some (String.mk acc.reverse, rest)
    else if c = '\\' then
      match rest with
      | [] => none
      | e :: rest2 =>
        if e = '"' then parseJStr fuel ('"' :: acc) rest2
        else if e = '\\' then parseJStr fuel ('\\' :: acc) rest2
        else if e = '/' then parseJStr fuel ('/' :: acc) rest2
        else if e = 'b' then parseJStr fuel ('\x08' :: acc) rest2
        else if e = 'f' then parseJStr fuel ('\x0c' :: acc) rest2
        else if e = 'n' then parseJStr fuel ('\n' :: acc) rest2
        else if e = 'r' then parseJStr fuel ('\x0d' :: acc) rest2
        else if e = 't' then parseJStr fuel ('\t' :: acc) rest2
        else if e = 'u' then
          match rest2 with
          | h1 :: h2 :: h3 :: h4 :: rest3 =>
            match hexDigitVal h1, hexDigitVal h2, hexDigitVal h3, hexDigitVal h4 with
            | some a, some b, some c2, some d =>
              parseJStr fuel (Char.ofNat (((a * 16 + b) * 16 + c2) * 16 + d) :: acc) rest3
            | _, _, _, _ => none
          | _ => none
        else none
    else if c.toNat < 32 then none
    else parseJStr fuel (c :: acc) rest

/-- Decoder for the payload format the spec states for the broker channel: a
JSON object whose sole member is a log field holding a string.  Returns the
log text when the payload is exactly such a valid JSON object, none
otherwise. -/
def decodeSoleLogField (payload : String) : Option String :=
  match payload.data with
  | '\x7b' :: '"' :: 'l' :: 'o' :: 'g' :: '"' :: ':' :: '"' :: rest =>
    match parseJStr (rest.length + 1) [] rest with
    | some (s, ['\x7d']) => some s
    | _ => none
  | _ => none

/-! ### Build server: state, publishLog, runBuild, uploadFiles, main -/

/-- Outcome of one broker publish call: ok with the number of subscribers the
payload was delivered to, or a broker error. -/
inductive PubResult where
  | ok (receivers : Nat)
  | err (msg : String)
deriving DecidableEq

/-- Observable build-server state: the payloads successfully handed to the
broker (with their channel), the publish-failure lines written by log.Printf
in publishLog (main.go line 75), and whether uploadFiles was entered.
Other operational log lines and the S3 puts themselves are outside every
claim and are not tracked. -/
structure BuildState where
  localLog : List String
  published : List (String × String)
  uploadStarted : Bool
deriving DecidableEq

def initState : BuildState := ⟨[], [], false⟩

/-- publishLog (main.go lines 69-77): format the payload, publish on the
build's channel, and on a broker error only log locally and drop the event.
The function has no error result: nothing propagates to the caller. -/
def publishLog (broker : String → String → PubResult) (projectID : String)
    (st : BuildState) (message : String) : BuildState :=
  match broker (logChannel projectID) (buildLogPayload message) with
  | PubResult.ok _ =>
    { st with published := st.published ++ [(logChannel projectID, buildLogPayload message)] }
  | PubResult.err e =>
    { st with localLog := st.localLog ++ ["Failed to publish log: " ++ e] }

/-- Which process stream a chunk came from (main.go lines 104-133). -/
inductive StreamId where
  | stdout
  | stderr
deriving DecidableEq

/-- The message text publishLog receives for a chunk: stdout chunks are
published raw, stderr chunks get the error marker (main.go lines 111, 127). -/
def chunkMessage : StreamId × String → String
  | (StreamId.stdout, s) => s
  | (StreamId.stderr, s) => "error: " ++ s

/-- uploadFiles (main.go lines 146-212) restricted to its broker-visible
effects: publish the start marker, per file the uploading/uploaded pair, and
the final Done marker.  The S3 puts are modelled as succeeding; S3 failure
paths are outside every claim.  uploadStarted records that the function was
entered at all. -/
def uploadFiles (broker : String → String → PubResult) (projectID : String)
    (st : BuildState) (files : List String) : BuildState :=
  let st1 := publishLog broker projectID { st with uploadStarted := true } "Starting to upload"
  let st2 := files.foldl (fun s f =>
    publishLog broker projectID (publishLog broker projectID s ("uploading " ++ f))
      ("uploaded " ++ f)) st1
  publishLog broker projectID st2 "Done"

/-- runBuild (main.go lines 79-144) for a process that started successfully:
publish the start marker, publish every output chunk (the chunks argument is
one interleaving of the two stream goroutines; cross-stream order is not
fixed by the source), then wait.  A non-zero exit returns the wrapped error
without publishing anything further and without calling uploadFiles; a zero
exit publishes the completion marker and uploads. -/
def runBuild (broker : String → String → PubResult) (projectID : String)
    (chunks : List (StreamId × String)) (exitCode : Nat) (files : List String) :
    BuildState × Option String :=
  let st := publishLog broker projectID initState "Build Started..."
  let st := chunks.foldl (fun s c => publishLog broker projectID s (chunkMessage c)) st
  if exitCode = 0 then
    (uploadFiles broker projectID (publishLog broker projectID st "Build Complete") files, none)
  else
    (st, some "build command failed")

/-- How the build-server process ends (main.go lines 214-223). -/
inductive ProcessExit where
  | fatal (msg : String)
  | normal
deriving DecidableEq

/-- main (main.go lines 214-223): any error returned by runBuild is passed to
log.Fatalf, a fatal process exit. -/
def buildServerMain (broker : String → String → PubResult) (projectID : String)
    (chunks : List (StreamId × String)) (exitCode : Nat) (files : List String) :
    BuildState × ProcessExit :=
  match runBuild broker projectID chunks exitCode files with
  | (st, some e) => (st, ProcessExit.fatal ("Build failed: " ++ e))
  | (st, none) => (st, ProcessExit.normal)

/-- A broker that accepts every publish (one subscriber listening). -/
def okBroker : String → String → PubResult := fun _ _ => PubResult.ok 1

/-- The message texts a successful build run hands to publishLog, in order,
read off runBuild and uploadFiles. -/
def buildTexts (chunks : List (StreamId × String)) (files : List String) : List String :=
  ["Build Started..."] ++ chunks.map chunkMessage ++ ["Build Complete", "Starting to upload"]
    ++ (files.flatMap fun f => ["uploading " ++ f, "uploaded " ++ f]) ++ ["Done"]

/-- Formalisation of claim C9: some extraction of a per-build sequence number
from the published payloads is strictly increasing along every build run's
publish sequence. -/
def CarriesPerBuildSequence : Prop :=
  ∃ seqOf : String → Nat,
    ∀ (pid : String) (chunks : List (StreamId × String)),
      ((runBuild okBroker pid chunks 0 []).1.published.map Prod.snd).Chain'
        (fun a b => seqOf a < seqOf b)

/-! ### API server: the forwarder (subscribeAndForward) -/

/-- A WriteJSON call on the viewer connection: both the subscribe
acknowledgement and every forwarded payload are written as a JSON object
with a single message field holding the given text (api server,
handleWebSocket and subscribeAndForward). -/
inductive ConnWrite where
  | msgObj (text : String)
deriving DecidableEq

/-- Observable outcome of one forwarder goroutine (subscribeAndForward):
every WriteJSON attempted, the attempts that succeeded, the payloads dropped
because unmarshalling failed (each producing only a local log line), and
whether the function returned so that the deferred pubsub.Close ran.
released = false means the goroutine is still blocked in its range loop and
the broker subscription is still open. -/
structure ForwardOut where
  attempts : List ConnWrite
  writes : List ConnWrite
  dropped : List String
  released : Bool
deriving DecidableEq

/-- subscribeAndForward's message loop.  decode abstracts json.Unmarshal
into the LogMessage struct (the Go standard library's behaviour is not part
of this repository); okW is the number of connection writes that succeed
before the viewer connection is closed (after the connection closes, every
write errors); the list is the sequence of payloads the broker delivers;
ended says whether the broker stream itself terminated after them (only
then does the range loop exit on its own).  Per the source: a payload that
fails to unmarshal is logged and skipped; one that unmarshals is written to
the connection; a write error breaks the loop, which runs the deferred
pubsub.Close. -/
def subscribeAndForward (decode : String → Bool) :
    Nat → List String → Bool → ForwardOut
  | _, [], ended => ⟨[], [], [], ended⟩
  | okW, p :: rest, ended =>
    if decode p then
      match okW with
      | 0 => ⟨[ConnWrite.msgObj p], [], [], true⟩
      | k + 1 =>
        ⟨ConnWrite.msgObj p :: (subscribeAndForward decode k rest ended).attempts,
         ConnWrite.msgObj p :: (subscribeAndForward decode k rest ended).writes,
         (subscribeAndForward decode k rest ended).dropped,
         (subscribeAndForward decode k rest ended).released⟩
    else
      ⟨(subscribeAndForward decode okW rest ended).attempts,
       (subscribeAndForward decode okW rest ended).writes,
       p :: (subscribeAndForward decode okW rest ended).dropped,
       (subscribeAndForward decode okW rest ended).released⟩

/-! ### API server: the WebSocket message loop (handleWebSocket) -/

/-- A decoded JSON value as seen through Go's map of interface values; the
message loop only ever asks whether a field is a string, so arrays and
objects need no structure here. -/
inductive JVal where
  | jstr (s : String)
  | jnum (q : Int)
  | jbool (b : Bool)
  | jnull
  | jarr
  | jobj
deriving DecidableEq

/-- The well-formedness test handleWebSocket applies to an inbound message:
the action member must be the string subscribe and the channel member must
be a string, which is returned. -/
def isSubscribeMsg (m : List (String × JVal)) : Option String :=
  match m.lookup "action" with
  | some (JVal.jstr a) =>
    if a = "subscribe" then
      match m.lookup "channel" with
      | some (JVal.jstr ch) => some ch
      | _ => none
    else none
  | _ => none

/-- Side effects of the message loop: spawning one forwarder goroutine for a
channel, and one WriteJSON acknowledgement on the connection. -/
inductive SessionEffect where
  | startForwarder (channel : String)
  | ack (w : ConnWrite)
deriving DecidableEq

/-- Effects of processing one inbound message (handleWebSocket body): a
well-formed subscribe request spawns exactly one forwarder and writes the
Joined acknowledgement; anything else does nothing. -/
def handleMessage (m : List (String × JVal)) : List SessionEffect :=
  match isSubscribeMsg m with
  | some ch =>
    [SessionEffect.startForwarder ch, SessionEffect.ack (ConnWrite.msgObj ("Joined " ++ ch))]
  | none => []

/-- handleWebSocket's read loop over the inbound messages; none stands for a
ReadJSON error (closed connection or undecodable frame), which breaks the
loop. -/
def handleWebSocket : List (Option (List (String × JVal))) → List SessionEffect
  | [] => []
  | none :: _ => []
  | some m :: rest => handleMessage m ++ handleWebSocket rest

/-- The PSubscribe calls one spawned forwarder makes: subscribeAndForward
opens exactly one pattern subscription, on its channel argument. -/
def forwarderPatterns (channel : String) : List String := [channel]

/-! ### Broker model (Redis is an external collaborator, not in the sources) -/

/-- Redis-style glob matching with the star and question-mark wildcards,
fuel-indexed for structural recursion.  Character classes are not modelled;
the claims only use literal channel names. -/
def globMatchF : Nat → List Char → List Char → Bool
  | 0, _, _ => false
  | _ + 1, [], s => s.isEmpty
  | f + 1, p :: ps, s =>
    if p = '*' then
      match s with
      | [] => globMatchF f ps []
      | _ :: cs => globMatchF f ps s || globMatchF f (p :: ps) cs
    else
      match s with
      | [] => false
      | c :: cs => if p = '?' then globMatchF f ps cs else (p == c && globMatchF f ps cs)

/-- Whether a pattern subscription matches a channel name. -/
def patternMatches (pattern channel : String) : Bool :=
  globMatchF (pattern.length + channel.length + 1) pattern.data channel.data

/-- A channel name with no glob metacharacters, so its pattern matches
exactly itself. -/
def literalPattern (s : String) : Bool :=
  s.data.all fun c => !(c == '*' || c == '?' || c == '[')

/-- Modelled from the spec: the Broker Channel Abstraction delivers every
published payload to each subscriber whose pattern matches the payload's
channel, in publish order, with no buffering for non-subscribers.  The
broker itself (Redis) is not part of this repository's sources. -/
def brokerDeliver (published : List (String × String)) (pattern : String) : List String :=
  (published.filter fun cp => patternMatches pattern cp.1).map Prod.snd

/-- Modelled from the spec: a publish returns the number of matching
subscribers and is not an error merely because there are none. -/
def brokerPublishResult (subscriberPatterns : List String) (channel : String) : PubResult :=
  PubResult.ok (subscriberPatterns.countP fun pat => patternMatches pat channel)

/-! ### API server: which task performs each connection write -/

/-- The goroutines that touch one connection's outbound socket: the read-loop
goroutine (which writes the acknowledgements) and each spawned forwarder. -/
inductive TaskId where
  | reader
  | forwarder (n : Nat)
deriving DecidableEq

/-- A connection write tagged with the goroutine that performs it. -/
structure TaggedWrite where
  task : TaskId
  write : ConnWrite
deriving DecidableEq

/-- The writes performed on one connection's socket, each attributed to its
goroutine, for a session whose n-th subscribe request is for the n-th listed
channel and whose forwarder n writes the given payloads: the read loop
itself writes each Joined acknowledgement, and every forwarder goroutine
calls WriteJSON on the same connection directly.  The source contains no
mutex, queue, or dedicated writer task. -/
def sessionWriters (subChannels : List String) (delivered : Nat → List String) :
    List TaggedWrite :=
  (subChannels.enum).flatMap fun ic =>
    ⟨TaskId.reader, ConnWrite.msgObj ("Joined " ++ ic.2)⟩ ::
      (delivered ic.1).map fun p => ⟨TaskId.forwarder ic.1, ConnWrite.msgObj p⟩

/-- The single-writer discipline the spec mandates: every write to the
connection is performed by one and the same task. -/
def SingleWriterDiscipline (ws : List TaggedWrite) : Prop :=
  ∀ w1 ∈ ws, ∀ w2 ∈ ws, w1.task = w2.task

/-! ### Helper lemmas -/

theorem globMatchF_self : ∀ (l : List Char), (∀ c ∈ l, c ≠ '*' ∧ c ≠ '?') →
    ∀ f, l.length < f → globMatchF f l l = true := by
  intro l
  induction l with
  | nil =>
    intro _ f hf
    cases f with
    | zero => omega
    | succ f => rfl
  | cons c cs ih =>
    intro h f hf
    cases f with
    | zero => omega
    | succ f =>
      have hc := h c (List.mem_cons_self c cs)
      have hcs : ∀ x ∈ cs, x ≠ '*' ∧ x ≠ '?' := fun x hx => h x (List.mem_cons_of_mem c hx)
      have hrec := ih hcs f (by simp [List.length_cons] at hf ⊢; omega)
      show globMatchF (f + 1) (c :: cs) (c :: cs) = true
      simp only [globMatchF, if_neg hc.1, if_neg hc.2]
      simp [hrec]

theorem patternMatches_self (s : String) (h : literalPattern s = true) :
    patternMatches s s = true := by
  unfold patternMatches
  apply globMatchF_self
  · intro c hc
    have hx := (List.all_eq_true.mp h) c hc
    simp at hx
    exact ⟨hx.1.1, hx.1.2⟩
  · have hl : s.length = s.data.length := rfl
    omega

theorem subscribeAndForward_run_spec (decode : String → Bool) :
    ∀ (ps : List String) (okW : Nat) (ended : Bool),
      ps.countP (fun x => decode x) ≤ okW →
      subscribeAndForward decode okW ps ended =
        ⟨(ps.filter fun x => decode x).map ConnWrite.msgObj,
         (ps.filter fun x => decode x).map ConnWrite.msgObj,
         ps.filter (fun x => !decode x), ended⟩ := by
  intro ps
  induction ps with
  | nil => intro okW ended _; rfl
  | cons p rest ih =>
    intro okW ended h
    rw [List.countP_cons] at h
    by_cases hd : decode p = true
    · cases okW with
      | zero => simp [hd] at h
      | succ k =>
        have hrest : rest.countP (fun x => decode x) ≤ k := by simp [hd] at h; omega
        simp only [subscribeAndForward, if_pos hd]
        rw [ih k ended hrest]
        simp [List.filter_cons, hd]
    · have hd' : decode p = false := by revert hd; cases decode p <;> simp
      have hrest : rest.countP (fun x => decode x) ≤ okW := by simp [hd'] at h; omega
      simp only [subscribeAndForward, if_neg hd]
      rw [ih okW ended hrest]
      simp [List.filter_cons, hd']

theorem publishLog_okBroker (pid : String) (st : BuildState) (m : String) :
    publishLog okBroker pid st m =
      { st with published := st.published ++ [(logChannel pid, buildLogPayload m)] } := rfl

theorem published_foldl_publish {α : Type} (pid : String) (f : α → String) :
    ∀ (xs : List α) (st : BuildState),
      (xs.foldl (fun s x => publishLog okBroker pid s (f x)) st).published
        = st.published ++ xs.map (fun x => (logChannel pid, buildLogPayload (f x))) := by
  intro xs
  induction xs with
  | nil => intro st; simp
  | cons x rest ih =>
    intro st
    simp only [List.foldl_cons, List.map_cons]
    rw [ih, publishLog_okBroker]
    simp [List.append_assoc]

theorem published_foldl_upload (pid : String) :
    ∀ (files : List String) (st : BuildState),
      ((files.foldl (fun s f =>
          publishLog okBroker pid (publishLog okBroker pid s ("uploading " ++ f))
            ("uploaded " ++ f)) st)).published
        = st.published ++ (files.flatMap fun f =>
            [(logChannel pid, buildLogPayload ("uploading " ++ f)),
             (logChannel pid, buildLogPayload ("uploaded " ++ f))]) := by
  intro files
  induction files with
  | nil => intro st; simp
  | cons f rest ih =>
    intro st
    simp only [List.foldl_cons, List.flatMap_cons]
    rw [ih, publishLog_okBroker, publishLog_okBroker]
    simp [List.append_assoc]

theorem published_uploadFiles (pid : String) (st : BuildState) (files : List String) :
    (uploadFiles okBroker pid st files).published
      = st.published ++ [(logChannel pid, buildLogPayload "Starting to upload")]
        ++ (files.flatMap fun f =>
            [(logChannel pid, buildLogPayload ("uploading " ++ f)),
             (logChannel pid, buildLogPayload ("uploaded " ++ f))])
        ++ [(logChannel pid, buildLogPayload "Done")] := by
  unfold uploadFiles
  rw [publishLog_okBroker, published_foldl_upload, publishLog_okBroker]

/-! ### Claim theorems -/

/-- Claim C1 (code-bug evidence): on a build whose process exits with status
1 after one stderr chunk, the embedded build server ends in a fatal process
exit (log.Fatalf), uploadFiles is never entered, and the only payloads ever
published are the start marker and the chunk — no terminal failure LogEvent
is published and no artifact upload is attempted. -/
theorem c1_build_failure_evidence :
    (buildServerMain okBroker "abc123" [(StreamId.stderr, "npm ERR! Exit status 1")] 1 []).2
      = ProcessExit.fatal "Build failed: build command failed" ∧
    (buildServerMain okBroker "abc123" [(StreamId.stderr, "npm ERR! Exit status 1")] 1
        []).1.uploadStarted = false ∧
    (buildServerMain okBroker "abc123" [(StreamId.stderr, "npm ERR! Exit status 1")] 1
        []).1.published.map Prod.snd
      = [buildLogPayload "Build Started...",
         buildLogPayload "error: npm ERR! Exit status 1"] := by
  refine ⟨rfl, rfl, rfl⟩

/-- Claim C2 (code-bug evidence): the channel name is the fixed namespace
plus the build identity, and a quote-free text round-trips through the
payload as the claim states; but for a message text containing a double
quote — routine in npm output — the payload publishLog produces is not a
valid JSON object with a sole log field at all, because the source
interpolates the raw text without JSON escaping. -/
theorem c2_payload_encoding_evidence :
    logChannel "abc123" = "logs:abc123" ∧
    decodeSoleLogField (buildLogPayload "Build Started...") = some "Build Started..." ∧
    decodeSoleLogField (buildLogPayload "cannot find module \"react\"") = none := by
  refine ⟨rfl, rfl, rfl⟩

/-- Claim C4: publishing is fire-and-forget.  (1) When the broker errors, the
event is dropped (the published list is untouched) and the failure is only
logged locally; publishLog returns an ordinary state, no error reaches the
caller.  (2) runBuild's result depends only on the exit code, for every
broker whatsoever: no broker failure can fail the build.  (3) In the broker
model taken from the spec, publishing with zero subscribers is a successful
publish delivered to nobody, not an error. -/
theorem c4_publish_fire_and_forget :
    (∀ (e : String) (pid : String) (st : BuildState) (m : String),
        publishLog (fun _ _ => PubResult.err e) pid st m =
          { st with localLog := st.localLog ++ ["Failed to publish log: " ++ e] }) ∧
    (∀ (broker : String → String → PubResult) (pid : String)
        (chunks : List (StreamId × String)) (exitCode : Nat) (files : List String),
        (runBuild broker pid chunks exitCode files).2 =
          if exitCode = 0 then none else some "build command failed") ∧
    (∀ channel : String, brokerPublishResult [] channel = PubResult.ok 0) := by
  refine ⟨fun e pid st m => rfl, fun broker pid chunks exitCode files => ?_, fun channel => rfl⟩
  unfold runBuild
  by_cases h : exitCode = 0 <;> simp [h]

/-- Claim C8 (code-bug evidence): with the viewer connection already closed
(no write can succeed) and the broker stream still open, a forwarder that
receives no further payload never returns, so the deferred pubsub.Close
never runs and the subscription is not released; and when one more payload
does arrive, the forwarder first attempts a write on the closed connection
(which fails) and only then stops and releases.  Both contradict the claim
that close stops every forwarder, releases every handle, and prevents any
further write attempt. -/
theorem c8_close_leak_evidence :
    (subscribeAndForward (fun p => (decodeSoleLogField p).isSome) 0 [] false).released
      = false ∧
    (subscribeAndForward (fun p => (decodeSoleLogField p).isSome) 0 [buildLogPayload "hi"]
        false).attempts = [ConnWrite.msgObj (buildLogPayload "hi")] ∧
    (subscribeAndForward (fun p => (decodeSoleLogField p).isSome) 0 [buildLogPayload "hi"]
        false).writes = [] ∧
    (subscribeAndForward (fun p => (decodeSoleLogField p).isSome) 0 [buildLogPayload "hi"]
        false).released = true := by
  refine ⟨rfl, rfl, rfl, rfl⟩

/-- Claim C10 (code-bug evidence): on a connection with a single subscription
to a channel, the acknowledgement is written by the read-loop goroutine while
the delivered payload is written by the forwarder goroutine — two distinct
tasks write the same socket and no serialization exists in the source, so the
single-writer discipline the claim states is violated. -/
theorem c10_concurrent_writers_evidence :
    ¬ SingleWriterDiscipline
        (sessionWriters ["logs:abc123"] fun _ => [buildLogPayload "hi"]) := by
  intro h
  have hx := h ⟨TaskId.reader, ConnWrite.msgObj ("Joined " ++ "logs:abc123")⟩ (by simp [sessionWriters])
    ⟨TaskId.forwarder 0, ConnWrite.msgObj (buildLogPayload "hi")⟩ (by simp [sessionWriters])
  simp at hx

/-- Claim C3: for every unmarshalling function and every payload sequence the
broker delivers, as long as the connection stays writable the forwarder
writes exactly the payloads that unmarshal successfully, in order; every
payload that fails to unmarshal is dropped with only a local log line and
nothing written to the viewer; and the loop never terminates early on an
unmarshal failure — it runs to the end of the stream (released equals
whether the stream itself ended). -/
theorem c3_unmarshal_failure_dropped (decode : String → Bool) (ps : List String)
    (okW : Nat) (ended : Bool)
    (h : ps.countP (fun x => decode x) ≤ okW) :
    (subscribeAndForward decode okW ps ended).writes
      = (ps.filter fun x => decode x).map ConnWrite.msgObj ∧
    (subscribeAndForward decode okW ps ended).dropped
      = ps.filter (fun x => !decode x) ∧
    (subscribeAndForward decode okW ps ended).released = ended := by
  rw [subscribeAndForward_run_spec decode ps okW ended h]
  exact ⟨rfl, rfl, rfl⟩

/-- Witness for C3: a run over a valid payload, an undecodable payload, and
another valid payload — the bad one is dropped, the two good ones are
forwarded in order, and the session survives. -/
theorem c3_unmarshal_failure_dropped_witness :
    ([buildLogPayload "ok", "bad json", buildLogPayload "fine"].countP
        (fun x => (decodeSoleLogField x).isSome) ≤ 2) ∧
    ((subscribeAndForward (fun p => (decodeSoleLogField p).isSome) 2
        [buildLogPayload "ok", "bad json", buildLogPayload "fine"] false).writes
      = ([buildLogPayload "ok", "bad json", buildLogPayload "fine"].filter
          fun x => (decodeSoleLogField x).isSome).map ConnWrite.msgObj ∧
    (subscribeAndForward (fun p => (decodeSoleLogField p).isSome) 2
        [buildLogPayload "ok", "bad json", buildLogPayload "fine"] false).dropped
      = [buildLogPayload "ok", "bad json", buildLogPayload "fine"].filter
          (fun x => !(decodeSoleLogField x).isSome) ∧
    (subscribeAndForward (fun p => (decodeSoleLogField p).isSome) 2
        [buildLogPayload "ok", "bad json", buildLogPayload "fine"] false).released = false) :=
  ⟨by decide,
   c3_unmarshal_failure_dropped (fun p => (decodeSoleLogField p).isSome)
     [buildLogPayload "ok", "bad json", buildLogPayload "fine"] 2 false (by decide)⟩

/-- Claim C5: every well-formed subscribe request produces exactly these two
effects — one forwarder task started for the requested pattern (which opens
exactly one broker pattern subscription, on that pattern) and the Joined
acknowledgement written to the viewer. -/
theorem c5_subscribe_effects (m : List (String × JVal)) (ch : String)
    (h : isSubscribeMsg m = some ch) :
    handleMessage m =
      [SessionEffect.startForwarder ch,
       SessionEffect.ack (ConnWrite.msgObj ("Joined " ++ ch))] ∧
    forwarderPatterns ch = [ch] := by
  constructor
  · unfold handleMessage
    rw [h]
  · rfl

/-- Witness for C5: the literal subscribe request for logs:abc123. -/
theorem c5_subscribe_effects_witness :
    isSubscribeMsg [("action", JVal.jstr "subscribe"), ("channel", JVal.jstr "logs:abc123")]
      = some "logs:abc123" ∧
    (handleMessage [("action", JVal.jstr "subscribe"), ("channel", JVal.jstr "logs:abc123")] =
      [SessionEffect.startForwarder "logs:abc123",
       SessionEffect.ack (ConnWrite.msgObj ("Joined " ++ "logs:abc123"))] ∧
    forwarderPatterns "logs:abc123" = ["logs:abc123"]) :=
  ⟨by decide,
   c5_subscribe_effects [("action", JVal.jstr "subscribe"), ("channel", JVal.jstr "logs:abc123")]
     "logs:abc123" (by decide)⟩

/-- Claim C6: a malformed subscribe request — wrong or missing action, or a
missing or non-string channel — produces no effect at all (no
acknowledgement, no forwarder, no subscription), and the read loop simply
continues: the session's remaining behaviour is exactly that of the rest of
the inbound messages, so a later well-formed subscribe still succeeds. -/
theorem c6_malformed_ignored (m : List (String × JVal))
    (rest : List (Option (List (String × JVal))))
    (h : isSubscribeMsg m = none) :
    handleMessage m = [] ∧
    handleWebSocket (some m :: rest) = handleWebSocket rest := by
  have hm : handleMessage m = [] := by
    unfold handleMessage
    rw [h]
  refine ⟨hm, ?_⟩
  show handleMessage m ++ handleWebSocket rest = handleWebSocket rest
  rw [hm, List.nil_append]

/-- Witness for C6: the spec's own scenario — an action ping request has no
effect and a following valid subscribe on the same connection still yields
its forwarder and acknowledgement. -/
theorem c6_malformed_ignored_witness :
    isSubscribeMsg [("action", JVal.jstr "ping")] = none ∧
    (handleMessage [("action", JVal.jstr "ping")] = [] ∧
    handleWebSocket (some [("action", JVal.jstr "ping")] ::
        [some [("action", JVal.jstr "subscribe"), ("channel", JVal.jstr "logs:A")]])
      = handleWebSocket [some [("action", JVal.jstr "subscribe"),
          ("channel", JVal.jstr "logs:A")]]) :=
  ⟨by decide,
   c6_malformed_ignored [("action", JVal.jstr "ping")]
     [some [("action", JVal.jstr "subscribe"), ("channel", JVal.jstr "logs:A")]] (by decide)⟩

/-- Claim C7: with a single publisher on the channel of one build and a
single subscriber holding a matching (literal) subscription, the broker
model delivers the published payloads unchanged and in publish order, and
the forwarder — as long as the connection stays writable and the payloads
unmarshal — writes them to the viewer in exactly that order. -/
theorem c7_publish_order (decode : String → Bool) (buildID : String) (msgs : List String)
    (okW : Nat)
    (hlit : literalPattern (logChannel buildID) = true)
    (hdec : ∀ m ∈ msgs, decode m = true)
    (hok : msgs.length ≤ okW) :
    brokerDeliver (msgs.map fun m => (logChannel buildID, m)) (logChannel buildID) = msgs ∧
    (subscribeAndForward decode okW
        (brokerDeliver (msgs.map fun m => (logChannel buildID, m)) (logChannel buildID))
        false).writes
      = msgs.map ConnWrite.msgObj := by
  have hdeliver : brokerDeliver (msgs.map fun m => (logChannel buildID, m))
      (logChannel buildID) = msgs := by
    unfold brokerDeliver
    have hf : (msgs.map fun m => (logChannel buildID, m)).filter
        (fun cp => patternMatches (logChannel buildID) cp.1)
        = msgs.map fun m => (logChannel buildID, m) := by
      apply List.filter_eq_self.mpr
      intro a ha
      obtain ⟨m, hm, rfl⟩ := List.mem_map.mp ha
      simpa using patternMatches_self _ hlit
    rw [hf, List.map_map]
    simp
  refine ⟨hdeliver, ?_⟩
  rw [hdeliver]
  have hcount : msgs.countP (fun x => decode x) ≤ okW :=
    le_trans (List.countP_le_length _) hok
  rw [subscribeAndForward_run_spec decode msgs okW false hcount]
  have hfilter : msgs.filter (fun x => decode x) = msgs :=
    List.filter_eq_self.mpr (fun a ha => by simp [hdec a ha])
  simp [hfilter]

/-- Witness for C7: two payloads published on the channel of build abc123 are
delivered and forwarded in publish order. -/
theorem c7_publish_order_witness :
    literalPattern (logChannel "abc123") = true ∧
    (∀ m ∈ (["first", "second"] : List String), (fun _ : String => true) m = true) ∧
    ((["first", "second"] : List String).length ≤ 2) ∧
    (brokerDeliver ((["first", "second"] : List String).map
        fun m => (logChannel "abc123", m)) (logChannel "abc123") = ["first", "second"] ∧
     (subscribeAndForward (fun _ => true) 2
        (brokerDeliver ((["first", "second"] : List String).map
          fun m => (logChannel "abc123", m)) (logChannel "abc123")) false).writes
       = (["first", "second"] : List String).map ConnWrite.msgObj) :=
  ⟨by decide, by decide, by decide,
   c7_publish_order (fun _ => true) "abc123" ["first", "second"] 2
     (by decide) (by decide) (by decide)⟩

/-- Claim C9 counterexample: no extraction of sequence numbers from the
published payloads can be strictly increasing along every run, because a
build that emits the same chunk text twice publishes two identical payloads
in adjacent positions — the payloads carry no per-build counter at all. -/
theorem c9_no_sequence_counterexample : ¬ CarriesPerBuildSequence := by
  rintro ⟨seqOf, h⟩
  have h2 := h "p" [(StreamId.stdout, "x"), (StreamId.stdout, "x")]
  have hlist : ((runBuild okBroker "p" [(StreamId.stdout, "x"), (StreamId.stdout, "x")]
        0 []).1.published.map Prod.snd)
      = [buildLogPayload "Build Started...", buildLogPayload "x", buildLogPayload "x",
         buildLogPayload "Build Complete", buildLogPayload "Starting to upload",
         buildLogPayload "Done"] := rfl
  rw [hlist] at h2
  simp [List.chain'_cons] at h2

/-- Claim C9 amended: the encoder attaches no sequence number — every chunk
of a run is published as the log-wrapped payload of its text alone, so the
whole published sequence of a successful run is the pointwise image of the
message texts, identical texts giving identical payloads; ordering within a
build comes only from the broker's publish-order delivery. -/
theorem c9_payloads_pure_function_of_text (pid : String)
    (chunks : List (StreamId × String)) (files : List String) :
    (runBuild okBroker pid chunks 0 files).1.published
      = (buildTexts chunks files).map (fun m => (logChannel pid, buildLogPayload m)) := by
  show (uploadFiles okBroker pid (publishLog okBroker pid
      (chunks.foldl (fun s c => publishLog okBroker pid s (chunkMessage c))
        (publishLog okBroker pid initState "Build Started...")) "Build Complete")
      files).published = _
  rw [published_uploadFiles]
  rw [show ∀ st m, (publishLog okBroker pid st m).published
      = st.published ++ [(logChannel pid, buildLogPayload m)] from fun st m => rfl]
  rw [published_foldl_publish]
  rw [show ∀ st m, (publishLog okBroker pid st m).published
      = st.published ++ [(logChannel pid, buildLogPayload m)] from fun st m => rfl]
  unfold buildTexts initState
  simp [List.map_append, List.map_map, List.append_assoc, List.map_flatMap]
